import Mathlib

/-!
Verification of the Amakusa travel-point finder.

The repository contains two divergent revisions of the same logic:
`script.js` (earlier, permissive) and the final revision (strict), plus the
static table `data.js`. Both revisions are embedded below, the final one in
namespace `Final` and the earlier one in namespace `Script`; `parseAddress`
and the data table are shared verbatim between revisions.

Modelling conventions: JavaScript numbers are modelled as exact rationals,
with `Option ℚ` for possibly-NaN values (`none` models `NaN`; every
comparison against `NaN` is false, as in JS). `parseFloat` is modelled on
decimal/exponent notation (the `Infinity` literal, which no normalized
house-number string produces a numeric result for, is mapped to `none`).
Strings are Lean `String`s; all character-level operations (trim, substring
search, splitting, digit classes) are written out below on `List Char`.
-/

/-- ASCII digit test, as in the regex class `[0-9]`. -/
def isAsciiDigit (c : Char) : Bool := '0' ≤ c && c ≤ '9'

/-- Full-width digit test, as in the regex class `[０-９]`. -/
def isFullWidthDigit (c : Char) : Bool := '０' ≤ c && c ≤ '９'

/-- Digit test for the regex class `[0-9０-９]` used by `parseAddress`. -/
def isAnyDigit (c : Char) : Bool := isAsciiDigit c || isFullWidthDigit c

/-- The code's full-width-to-ASCII conversion:
`String.fromCharCode(s.charCodeAt(0) - 0xFEE0)` applied to `[０-９]`. -/
def toHalfWidth (c : Char) : Char :=
  if isFullWidthDigit c then Char.ofNat (c.toNat - 0xFEE0) else c

/-- Whitespace recognized by JavaScript `trim` / `parseFloat` skipping
(ASCII whitespace, NBSP and the ideographic space). -/
def isJsSpace (c : Char) : Bool :=
  c == ' ' || c == '\t' || c == '\n' || c == '\r' ||
  c == '\x0b' || c == '\x0c' || c == '\xA0' || c == '　'

/-- JavaScript `String.trim` on a character list. -/
def trimL (s : List Char) : List Char :=
  ((s.dropWhile isJsSpace).reverse.dropWhile isJsSpace).reverse

/-- `beginsWithL pat s` holds when `pat` is a prefix of `s`
(JS `String.startsWith`). -/
def beginsWithL : List Char → List Char → Bool
  | [], _ => true
  | _ :: _, [] => false
  | a :: as, b :: bs => a == b && beginsWithL as bs

/-- Split a list at the first occurrence of `sep`: `some (a, b)` with
`s = a ++ sep ++ b` at the leftmost occurrence, `none` when `sep` does not
occur. This is the primitive behind JS `split` and `includes`. -/
def breakOnL (sep : List Char) : List Char → Option (List Char × List Char)
  | [] => none
  | c :: cs =>
    if beginsWithL sep (c :: cs) then some ([], (c :: cs).drop sep.length)
    else
      match breakOnL sep cs with
      | some (a, b) => some (c :: a, b)
      | none => none

/-- JS `haystack.includes(needle)` for a non-empty needle. -/
def containsSubL (needle hay : List Char) : Bool := (breakOnL needle hay).isSome

/-- String wrapper for `containsSubL`. -/
def containsSubS (needle hay : String) : Bool := containsSubL needle.data hay.data

/-- Decimal digits to a natural number. -/
def digitsToNat (ds : List Char) : Nat :=
  ds.foldl (fun acc c => acc * 10 + (c.toNat - '0'.toNat)) 0

/-- Exponent part of a JS float literal (`e`/`E` already consumed): an
optional sign and digits; an invalid exponent part is ignored (JS
`parseFloat("1e") = 1`). -/
def parseExp (s : List Char) : Int :=
  let (sg, s2) : Int × List Char :=
    match s with
    | '-' :: r => (-1, r)
    | '+' :: r => (1, r)
    | _ => (1, s)
  let ds := s2.takeWhile isAsciiDigit
  if ds.length = 0 then 0 else sg * (digitsToNat ds : Int)

/-- Model of JavaScript `parseFloat`: skip whitespace, optional sign,
integer digits, optional fraction, optional exponent; `none` models `NaN`
(no digit found in the mantissa). The value
`sign * (intDigits.fracDigits) * 10 ^ expo` is produced in one `mkRat`
so that it evaluates by integer arithmetic. -/
def jsParseFloat (s : List Char) : Option ℚ :=
  let s1 := s.dropWhile isJsSpace
  let (sgn, s2) : Int × List Char :=
    match s1 with
    | '-' :: rest => (-1, rest)
    | '+' :: rest => (1, rest)
    | _ => (1, s1)
  let intPart := s2.takeWhile isAsciiDigit
  let s3 := s2.drop intPart.length
  let (fracPart, s4) : List Char × List Char :=
    match s3 with
    | '.' :: rest => (rest.takeWhile isAsciiDigit, rest.drop (rest.takeWhile isAsciiDigit).length)
    | _ => ([], s3)
  if intPart.length + fracPart.length = 0 then none
  else
    let mantNum : Nat := digitsToNat intPart * 10 ^ fracPart.length + digitsToNat fracPart
    let expo : Int :=
      match s4 with
      | 'e' :: rest => parseExp rest
      | 'E' :: rest => parseExp rest
      | _ => 0
    if 0 ≤ expo then
      some (mkRat (sgn * (mantNum : Int) * (10 : Int) ^ expo.toNat) (10 ^ fracPart.length))
    else
      some (mkRat (sgn * (mantNum : Int)) (10 ^ (fracPart.length + (-expo).toNat)))

/-- One range row of `TRAVEL_POINTS_DATA`: `{"start": …, "end": …, "location": …}`. -/
structure TravelRange where
  start : ℚ
  «end» : ℚ
  location : String
deriving DecidableEq

/-- One town row of `TRAVEL_POINTS_DATA`: `{"town": …, "ranges": […]}`. -/
structure TownEntry where
  town : String
  ranges : List TravelRange
deriving DecidableEq

/-- Entry `浄南町` of `data.js` (ranges in the shipped order). -/
def jonanEntry : TownEntry :=
  ⟨"浄南町",
    [⟨5, 99999, "本渡or亀場"⟩,
     ⟨0, 5, "本渡"⟩]⟩

/-- Entry `本渡町広瀬` of `data.js`. -/
def hondoHiroseEntry : TownEntry :=
  ⟨"本渡町広瀬",
    [⟨1, 1470, "本渡"⟩,
     ⟨1470, 2080, "佐伊津"⟩,
     ⟨2080, 99999, "本渡"⟩]⟩

/-- Entry `亀場町食場` of `data.js`. -/
def kabaJikibaEntry : TownEntry :=
  ⟨"亀場町食場",
    [⟨1, 340, "枦宇土"⟩,
     ⟨340, 700, "亀場"⟩,
     ⟨700, 800, "枦宇土"⟩,
     ⟨800, 900, "亀場or枦宇土"⟩,
     ⟨900, 1200, "亀場"⟩,
     ⟨1200, 99999, "枦宇土"⟩]⟩

/-- The shipped reference table `TRAVEL_POINTS_DATA` of `data.js`. -/
def TRAVEL_POINTS_DATA : List TownEntry :=
  [jonanEntry, hondoHiroseEntry, kabaJikibaEntry]

/-- Result of `parseAddress`: `{townName, houseNumber}`. -/
structure ParsedAddress where
  townName : String
  houseNumber : String
deriving DecidableEq

/-- Characters on which the regex metacharacter `.` fails in JS
(no `s` flag): line terminators. -/
def isJsLineTerm (c : Char) : Bool :=
  c == '\n' || c == '\r' || c == ' ' || c == ' '

/-- Position of the first digit at index ≥ 1, the split point produced by
the regex `^(.+?)([0-9０-９]+.*)$` (group 1 is lazy and non-empty, so the
match puts the boundary at the earliest digit not at position 0). -/
def firstDigitFrom1 (s : List Char) : Option Nat :=
  match s with
  | [] => none
  | _ :: rest => (rest.findIdx? isAnyDigit).map (· + 1)

/-- Split of the working address by `^(.+?)([0-9０-９]+.*)$` with both
groups trimmed; when the regex does not match, the whole (trimmed) address
is the town name and the house number is empty. The regex cannot match a
string containing a line terminator, since `.` matches none of its
characters. -/
def splitTownHouse (address : List Char) : ParsedAddress :=
  if address.any isJsLineTerm then ⟨⟨trimL address⟩, ""⟩
  else
    match firstDigitFrom1 address with
    | some i => ⟨⟨trimL (address.take i)⟩, ⟨trimL (address.drop i)⟩⟩
    | none => ⟨⟨trimL address⟩, ""⟩

/-- `parseAddress` (identical in both revisions): split the full address on
`"天草市"`; fewer than two parts means the prefix is absent and both fields
are empty. Otherwise `parts[1]` — the segment strictly between the first
occurrence and the next occurrence (or the end) — is trimmed and split into
town name and house number. -/
def parseAddress (fullAddress : String) : ParsedAddress :=
  match breakOnL "天草市".data fullAddress.data with
  | none => ⟨"", ""⟩
  | some (_, af) =>
    let seg :=
      match breakOnL "天草市".data af with
      | some (a, _) => a
      | none => af
    splitTownHouse (trimL seg)

/-- Follows the claim's words, for comparison with `parseAddress`: the
working address is *everything* after the first occurrence of `天草市`,
including any later text that contains the prefix again. -/
def parseAddressSpec (fullAddress : String) : ParsedAddress :=
  match breakOnL "天草市".data fullAddress.data with
  | none => ⟨"", ""⟩
  | some (_, af) => splitTownHouse (trimL af)

/-- The town-not-found message of `getTravelPoint` (both revisions):
`` `エラー: 入力された町名「${townName}」に該当する旅費データが見つかりません。` ``. -/
def townNotFoundMsg (townName : String) : String :=
  "エラー: 入力された町名「" ++ townName ++ "」に該当する旅費データが見つかりません。"

/-- The range-not-found message of `getTravelPoint` (both revisions). -/
def rangeNotFoundMsg : String :=
  "エラー: 入力された地番の範囲を特定できませんでした。"

/-- The UI's error convention: `point.startsWith("エラー:")` in `displayResult`. -/
def isErrorPoint (point : String) : Bool :=
  beginsWithL "エラー:".data point.data

/-- `townName.replace(/町$/, '').trim()`: strip one trailing `町`, then trim. -/
def cleanTown (t : String) : String :=
  ⟨trimL (if t.data.getLast? == some '町' then t.data.dropLast else t.data)⟩

/-- Half-open membership test of the range scan, on a possibly-NaN key:
`numericHouseNumber >= range.start && numericHouseNumber < range.end`
(every comparison with NaN is false). -/
def keyInRange (key : Option ℚ) (r : TravelRange) : Bool :=
  match key with
  | some q => decide (r.start ≤ q) && decide (q < r.«end»)
  | none => false

/-- `numericHouseNumber === x` on a possibly-NaN key. -/
def keyEqQ (key : Option ℚ) (x : ℚ) : Bool :=
  match key with
  | some q => q == x
  | none => false

/-- Fraction digits of `rem / den` by long division (fuel-bounded);
used to print rationals the way JS prints the numbers of `data.js`. -/
def qFracDigitsAux : Nat → Nat → Nat → List Char
  | 0, _, _ => []
  | _ + 1, 0, _ => []
  | fuel + 1, rem, den =>
    let r10 := rem * 10
    Char.ofNat ('0'.toNat + r10 / den) :: qFracDigitsAux fuel (r10 % den) den

/-- Format a rational the way JS prints the numbers appearing in
`data.js` (decimal, no trailing `.0`); used for the template string
`` `${rangeStart} 以上 ${rangeEnd} 未満` ``. All shipped endpoints are
integers, printed exactly. -/
def qToString (q : ℚ) : String :=
  let sgn := if q.num < 0 then "-" else ""
  let n := q.num.natAbs
  let d := q.den
  let ds := qFracDigitsAux 20 (n % d) d
  sgn ++ toString (n / d) ++ (if ds.isEmpty then "" else "." ++ ⟨ds⟩)

/-- The range description built by the final revision on success:
`` `${rangeStart} 以上 ${rangeEnd} 未満` ``. -/
def rangeDesc (r : TravelRange) : String :=
  qToString r.start ++ " 以上 " ++ qToString r.«end» ++ " 未満"

/-- The structured result of the final revision's `getTravelPoint`:
`{point, matchedTown, rangeStr}`. -/
structure LookupResult where
  point : String
  matchedTown : String
  rangeStr : String
deriving DecidableEq

/-- The excluded-towns list `['東町', '浄南町', '太田町']`. -/
def excludedTowns : List String := ["東町", "浄南町", "太田町"]

/-- `TRAVEL_POINTS_DATA.find(entry => entry.town === '東・浄南・太田町以外')`,
the catch-all lookup shared by both revisions. -/
def catchAllLookup : Option TownEntry :=
  TRAVEL_POINTS_DATA.find? (fun e => e.town == "東・浄南・太田町以外")

namespace Final

/-- Replace every occurrence of `番地` by `.`, left to right
(`replace(/番地/g, '.')` of the final revision). -/
def replaceBanchi : List Char → List Char
  | [] => []
  | '番' :: '地' :: rest => '.' :: replaceBanchi rest
  | c :: rest => c :: replaceBanchi rest

/-- JS `split('.')` on a character list. -/
def splitDots : List Char → List (List Char)
  | [] => [[]]
  | '.' :: rest => [] :: splitDots rest
  | c :: rest =>
    match splitDots rest with
    | seg :: segs => (c :: seg) :: segs
    | [] => [[c]]

/-- `parseToNumeric` of the final revision: empty input yields `0`;
otherwise convert full-width digits, turn `番地`/`番`/`号`/`の` and
`[-ー]` into `.`, keep only the first two non-empty dot-separated
segments, and `parseFloat` the trimmed result. -/
def parseToNumeric (houseNumberStr : String) : Option ℚ :=
  if houseNumberStr = "" then some 0
  else
    let c1 := houseNumberStr.data.map toHalfWidth
    let c2 := replaceBanchi c1
    let c3 := c2.map (fun c => if c == '番' then '.' else c)
    let c4 := c3.map (fun c => if c == '号' then '.' else c)
    let c5 := c4.map (fun c => if c == 'の' then '.' else c)
    let c6 := c5.map (fun c => if c == '-' || c == 'ー' then '.' else c)
    let parts := (splitDots c6).filter (fun p => 0 < p.length)
    let c7 :=
      match parts with
      | p0 :: p1 :: _ => p0 ++ '.' :: p1
      | [p0] => p0
      | [] => c6
    jsParseFloat (trimL c7)

/-- The final revision's per-entry match predicate: exact equality, or
equality of the `町`-stripped trimmed names (the two remaining tiers;
the substring tiers were deliberately removed). -/
def tierMatch (townName : String) (e : TownEntry) : Bool :=
  e.town == townName || cleanTown e.town == cleanTown townName

/-- `TRAVEL_POINTS_DATA.find(...)` with the strict predicate. -/
def findEntry (townName : String) : Option TownEntry :=
  TRAVEL_POINTS_DATA.find? (tierMatch townName)

/-- `['東町', '浄南町', '太田町'].some(ex => townName.includes(ex))`. -/
def excludedHit (townName : String) : Bool :=
  excludedTowns.any (fun ex => containsSubS ex townName)

/-- The entry the final revision settles on: the strict match if any;
otherwise, when the input contains none of the excluded towns, the
catch-all lookup (which may itself fail). -/
def targetEntryFor (townName : String) : Option TownEntry :=
  match findEntry townName with
  | some e => some e
  | none => if excludedHit townName then none else catchAllLookup

/-- The final revision's range scan: first range (in table order) whose
half-open interval contains the key. -/
def findRange (key : Option ℚ) (rs : List TravelRange) : Option TravelRange :=
  rs.find? (keyInRange key)

/-- `getTravelPoint` of the final revision: strict town match with
catch-all fallback, pure half-open range scan, structured result. -/
def getTravelPoint (townName : String) (key : Option ℚ) : LookupResult :=
  match targetEntryFor townName with
  | none => ⟨townNotFoundMsg townName, "", ""⟩
  | some e =>
    match findRange key e.ranges with
    | some r => ⟨r.location, e.town, rangeDesc r⟩
    | none => ⟨rangeNotFoundMsg, e.town, ""⟩

end Final

namespace Script

/-- `replace(/番地|番|号|の/g, '')` of `script.js`: the alternation is
tried left to right at each position, so `番地` is removed as a pair and
the remaining tokens singly. -/
def removeTokens : List Char → List Char
  | [] => []
  | '番' :: '地' :: rest => removeTokens rest
  | '番' :: rest => removeTokens rest
  | '号' :: rest => removeTokens rest
  | 'の' :: rest => removeTokens rest
  | c :: rest => c :: removeTokens rest

/-- Index of the second `.`, if any (`indexOf('.', indexOf('.') + 1)`). -/
def secondDotIdx? (s : List Char) : Option Nat :=
  match s.findIdx? (· == '.') with
  | none => none
  | some i =>
    match (s.drop (i + 1)).findIdx? (· == '.') with
    | none => none
    | some k => some (i + 1 + k)

/-- When the string holds more than one `.`, keep only the part before the
second one (`substring(0, indexOf('.', indexOf('.') + 1))`). -/
def truncSecondDot (s : List Char) : List Char :=
  match secondDotIdx? s with
  | some j => s.take j
  | none => s

/-- `parseToNumeric` of `script.js`: empty input yields `0`; otherwise the
lot tokens are *deleted* (not turned into a separator), full-width digits
converted, ASCII hyphens turned into `.`, the string cut before a second
`.`, a trailing `.` dropped, and the result `parseFloat`ed. -/
def parseToNumeric (houseNumberStr : String) : Option ℚ :=
  if houseNumberStr = "" then some 0
  else
    let c1 := trimL (removeTokens houseNumberStr.data)
    let c2 := c1.map toHalfWidth
    let c3 := c2.map (fun c => if c == '-' then '.' else c)
    let c4 := truncSecondDot c3
    let c5 := if c4.getLast? == some '.' then c4.dropLast else c4
    jsParseFloat c5

/-- The permissive per-entry match predicate of `script.js`: exact
equality, stripped equality, data-key-in-input (keys longer than 2), or
cleaned-input-in-data-key (cleaned inputs longer than 1). -/
def tierMatch (townName : String) (e : TownEntry) : Bool :=
  e.town == townName
  || cleanTown e.town == cleanTown townName
  || (containsSubS e.town townName && decide (2 < e.town.length))
  || (containsSubS (cleanTown townName) e.town && decide (1 < (cleanTown townName).length))

/-- `TRAVEL_POINTS_DATA.find(...)` with the permissive predicate. -/
def findEntry (townName : String) : Option TownEntry :=
  TRAVEL_POINTS_DATA.find? (tierMatch townName)

/-- The entry `script.js` settles on: the permissive match if any;
otherwise the catch-all lookup, consulted only when the *cleaned* input is
exactly one of the excluded names. -/
def targetEntryFor (townName : String) : Option TownEntry :=
  match findEntry townName with
  | some e => some e
  | none =>
    let c := cleanTown townName
    if c == "東町" || c == "浄南町" || c == "太田町" then catchAllLookup else none

/-- The range loop of `script.js`: half-open test first; a key equal to
the current range's `end` defers to the next range when that range starts
there, and otherwise claims the *current* range. -/
def scanRanges (key : Option ℚ) : List TravelRange → Option String
  | [] => none
  | r :: rest =>
    if keyInRange key r then some r.location
    else if keyEqQ key r.«end» then
      match rest with
      | next :: _ =>
        if keyEqQ key next.start then scanRanges key rest else some r.location
      | [] => some r.location
    else scanRanges key rest

/-- `getTravelPoint` of `script.js`: permissive matching, inverted
catch-all condition, boundary-special-cased range loop, string result. -/
def getTravelPoint (townName : String) (key : Option ℚ) : String :=
  match targetEntryFor townName with
  | none => townNotFoundMsg townName
  | some e =>
    match scanRanges key e.ranges with
    | some loc => loc
    | none => rangeNotFoundMsg

end Script

/-! Helper lemmas (shared across the claim theorems). -/

/-- A prefix of `q` is a prefix of `q ++ rest`. -/
theorem beginsWithL_append_left :
    ∀ (p q rest : List Char), beginsWithL p q = true → beginsWithL p (q ++ rest) = true
  | [], _, _, _ => rfl
  | _ :: _, [], _, h => by simp [beginsWithL] at h
  | a :: as, b :: bs, rest, h => by
    simp only [beginsWithL, Bool.and_eq_true] at h
    simp only [List.cons_append, beginsWithL, Bool.and_eq_true]
    exact ⟨h.1, beginsWithL_append_left as bs rest h.2⟩

/-- `find?` returns an element satisfying the predicate, and everything
before it in the list fails the predicate. -/
theorem find?_first {α : Type} (p : α → Bool) :
    ∀ (l : List α) (a : α), l.find? p = some a →
      p a = true ∧ ∃ pre suf, l = pre ++ a :: suf ∧ ∀ x ∈ pre, p x = false := by
  intro l
  induction l with
  | nil => intro a h; simp [List.find?] at h
  | cons b bs ih =>
    intro a h
    rw [List.find?_cons] at h
    cases hpb : p b with
    | true =>
      rw [hpb] at h
      simp only [cond_true, Option.some.injEq] at h
      subst h
      exact ⟨hpb, [], bs, by simp, by simp⟩
    | false =>
      rw [hpb] at h
      simp only [cond_false] at h
      obtain ⟨hpa, pre, suf, heq, hpre⟩ := ih a h
      refine ⟨hpa, b :: pre, suf, by simp [heq], ?_⟩
      intro x hx
      rcases List.mem_cons.1 hx with rfl | hx
      · exact hpb
      · exact hpre x hx

/-- The element `find?` returns belongs to the list. -/
theorem find?_mem {α : Type} (p : α → Bool) (l : List α) (a : α)
    (h : l.find? p = some a) : a ∈ l := by
  obtain ⟨-, pre, suf, heq, -⟩ := find?_first p l a h
  rw [heq]
  exact List.mem_append.2 (Or.inr (List.mem_cons_self a suf))

/-- When the first disjunct of a disjunctive predicate fails on the whole
list, `find?` of the disjunction is `find?` of the second disjunct. -/
theorem find?_or_left_false {α : Type} (p q : α → Bool) :
    ∀ l : List α, (∀ x ∈ l, p x = false) →
      l.find? (fun x => p x || q x) = l.find? q
  | [], _ => rfl
  | b :: bs, h => by
    have hb : p b = false := h b (List.mem_cons_self b bs)
    rw [List.find?_cons, List.find?_cons, hb, Bool.false_or]
    cases hq : q b with
    | true => rfl
    | false =>
      simp only [cond_false]
      exact find?_or_left_false p q bs (fun x hx => h x (List.mem_cons_of_mem b hx))

/-- A NaN key passes no half-open test, so the final revision's range scan
fails on every range list. -/
theorem findRange_nan (rs : List TravelRange) : Final.findRange none rs = none := by
  induction rs with
  | nil => rfl
  | cons r rest ih =>
    simp only [Final.findRange, List.find?_cons] at ih ⊢
    simp [keyInRange, ih]

/-- The shipped table has no catch-all entry. -/
theorem catchAllLookup_none : catchAllLookup = none := by decide

/-- Town-not-found messages carry the UI's error marker. -/
theorem isErrorPoint_townNotFound (t : String) :
    isErrorPoint (townNotFoundMsg t) = true := by
  unfold isErrorPoint townNotFoundMsg
  rw [String.data_append, String.data_append, List.append_assoc]
  exact beginsWithL_append_left _ _ _ (by decide)

/-- The range-not-found message carries the UI's error marker. -/
theorem isErrorPoint_rangeNotFound : isErrorPoint rangeNotFoundMsg = true := by decide

/-- When the strict tiers fail, the final revision ends with no entry at
all, because the catch-all lookup finds nothing in the shipped table. -/
theorem targetEntryFor_none (townName : String)
    (h : Final.findEntry townName = none) :
    Final.targetEntryFor townName = none := by
  unfold Final.targetEntryFor
  rw [h]
  cases hex : Final.excludedHit townName <;>
    simp [hex, catchAllLookup_none]

/-- Any entry the final revision settles on comes from the shipped table. -/
theorem targetEntryFor_mem (townName : String) (e : TownEntry)
    (h : Final.targetEntryFor townName = some e) : e ∈ TRAVEL_POINTS_DATA := by
  unfold Final.targetEntryFor at h
  cases hf : Final.findEntry townName with
  | some e' =>
    rw [hf] at h
    simp only [Option.some.injEq] at h
    exact h ▸ find?_mem _ _ _ hf
  | none =>
    rw [hf] at h
    cases hex : Final.excludedHit townName <;>
      simp [hex, catchAllLookup_none] at h

/-- With no strict match, the final revision reports town-not-found. -/
theorem final_no_match_result (townName : String) (key : Option ℚ)
    (h : Final.findEntry townName = none) :
    Final.getTravelPoint townName key = ⟨townNotFoundMsg townName, "", ""⟩ := by
  unfold Final.getTravelPoint
  rw [targetEntryFor_none townName h]

/-! Claim theorems. -/

/-- C1 (amended): the final revision's range resolver returns the first
range in table order whose half-open interval contains the key, so a key
equal to a range's `end` is never matched to that range by the half-open
test; the claim's example `{0,5}` followed by `{5,99999}` with key `5`
resolves to the second range in both revisions. (The earlier `script.js`
revision violates the universal statement — see the counterexample.) -/
theorem c1_half_open_first_match :
    (∀ (q : ℚ) (rs : List TravelRange) (r : TravelRange),
        Final.findRange (some q) rs = some r →
          (r.start ≤ q ∧ q < r.«end») ∧ q ≠ r.«end» ∧
          ∃ pre suf, rs = pre ++ r :: suf ∧
            ∀ x ∈ pre, ¬(x.start ≤ q ∧ q < x.«end»))
    ∧ Final.findRange (some 5) [⟨0, 5, "A"⟩, ⟨5, 99999, "B"⟩] = some ⟨5, 99999, "B"⟩
    ∧ Script.scanRanges (some 5) [⟨0, 5, "A"⟩, ⟨5, 99999, "B"⟩] = some "B" := by
  refine ⟨?_, by decide, by decide⟩
  intro q rs r h
  obtain ⟨hp, pre, suf, heq, hpre⟩ := find?_first (keyInRange (some q)) rs r h
  have hin : r.start ≤ q ∧ q < r.«end» := by
    simpa [keyInRange] using hp
  refine ⟨hin, ne_of_lt hin.2, pre, suf, heq, ?_⟩
  intro x hx hcon
  have := hpre x hx
  simp [keyInRange, hcon.1, hcon.2] at this

/-- C1 witness: the characterization applied to the singleton range list
`[{0,5}]` with key `0`. -/
theorem c1_half_open_first_match_witness :
    (((⟨0, 5, "A"⟩ : TravelRange).start ≤ (0 : ℚ) ∧
        (0 : ℚ) < (⟨0, 5, "A"⟩ : TravelRange).«end») ∧
      (0 : ℚ) ≠ (⟨0, 5, "A"⟩ : TravelRange).«end» ∧
      ∃ pre suf, [(⟨0, 5, "A"⟩ : TravelRange)] = pre ++ (⟨0, 5, "A"⟩ : TravelRange) :: suf ∧
        ∀ x ∈ pre, ¬(x.start ≤ (0 : ℚ) ∧ (0 : ℚ) < x.«end»)) :=
  c1_half_open_first_match.1 0 [⟨0, 5, "A"⟩] ⟨0, 5, "A"⟩ (by decide)

/-- C1 counterexample: in `script.js`, key `99999` against the shipped
`浄南町` entry is matched to the range whose `end` is exactly `99999`
(no range contains it half-open), returning that range's location. -/
theorem c1_boundary_counterexample :
    Script.getTravelPoint "浄南町" (some 99999) = "本渡or亀場"
    ∧ (∀ e ∈ TRAVEL_POINTS_DATA, e.town = "浄南町" →
        ∀ r ∈ e.ranges, ¬(r.start ≤ (99999 : ℚ) ∧ (99999 : ℚ) < r.«end»))
    ∧ jonanEntry ∈ TRAVEL_POINTS_DATA
    ∧ jonanEntry.town = "浄南町"
    ∧ (jonanEntry.ranges.head?).map TravelRange.«end» = some 99999
    ∧ (jonanEntry.ranges.head?).map TravelRange.location = some "本渡or亀場" := by
  decide

/-- C2: the final revision's `parseToNumeric` turns the lot tokens into a
decimal point and keeps only the first two segments, giving the four
specified values exactly; the `script.js` revision instead deletes the
tokens and returns `415` for `４番１５号`, contradicting its own doc
comment (`"4番15号" -> 4.15`). -/
theorem c2_parser_examples :
    Final.parseToNumeric "４番１５号" = some (mkRat 415 100)
    ∧ (mkRat 415 100 : ℚ).num = 83 ∧ (mkRat 415 100 : ℚ).den = 20
    ∧ Final.parseToNumeric "1470番" = some 1470
    ∧ Final.parseToNumeric "1-2-3" = some (mkRat 12 10)
    ∧ (mkRat 12 10 : ℚ).num = 6 ∧ (mkRat 12 10 : ℚ).den = 5
    ∧ Final.parseToNumeric "" = some 0
    ∧ Script.parseToNumeric "４番１５号" = some 415 := by
  decide

/-- C3 (amended): the final revision matches only by exact equality or by
`町`-stripped equality — any entry it returns satisfies one of the two. -/
theorem c3_strict_match_only (townName : String) (e : TownEntry)
    (h : Final.findEntry townName = some e) :
    e.town = townName ∨ cleanTown e.town = cleanTown townName := by
  have hp := (find?_first (Final.tierMatch townName) TRAVEL_POINTS_DATA e h).1
  simpa [Final.tierMatch, Bool.or_eq_true, beq_iff_eq] using hp

/-- C3 witness: the strict matcher applied to the exact town `浄南町`. -/
theorem c3_strict_match_only_witness :
    jonanEntry.town = "浄南町" ∨ cleanTown jonanEntry.town = cleanTown "浄南町" :=
  c3_strict_match_only "浄南町" jonanEntry (by decide)

/-- C3 counterexample: in `script.js`, the input `食場` — related to the
key `亀場町食場` only as a proper substring (neither exact nor
`町`-stripped equal) — IS matched to that entry and resolves to a travel
point. -/
theorem c3_substring_counterexample :
    (Script.findEntry "食場").map TownEntry.town = some "亀場町食場"
    ∧ "亀場町食場" ≠ "食場"
    ∧ cleanTown "亀場町食場" ≠ cleanTown "食場"
    ∧ containsSubS "食場" "亀場町食場" = true
    ∧ Script.getTravelPoint "食場" (some 100) = "枦宇土" := by
  decide

/-- C4: whenever some entry matches the input exactly (tier 1), both
revisions return the first exactly-matching entry in table order — a
lower tier never overrides it; and in the final revision, when no exact
match exists anywhere, the result is the first tier-2 (stripped-equality)
match in table order. -/
theorem c4_exact_match_priority :
    (∀ townName : String,
        TRAVEL_POINTS_DATA.any (fun e => e.town == townName) = true →
          Final.findEntry townName = TRAVEL_POINTS_DATA.find? (fun e => e.town == townName)
          ∧ Script.findEntry townName = TRAVEL_POINTS_DATA.find? (fun e => e.town == townName))
    ∧ (∀ townName : String,
        (∀ e ∈ TRAVEL_POINTS_DATA, (e.town == townName) = false) →
          Final.findEntry townName =
            TRAVEL_POINTS_DATA.find? (fun e => cleanTown e.town == cleanTown townName)) := by
  constructor
  · intro townName h
    have hcase : townName = "浄南町" ∨ townName = "本渡町広瀬" ∨ townName = "亀場町食場" := by
      simp only [TRAVEL_POINTS_DATA, jonanEntry, hondoHiroseEntry, kabaJikibaEntry,
        List.any_cons, List.any_nil, Bool.or_eq_true, Bool.or_false, beq_iff_eq] at h
      tauto
    rcases hcase with h1 | h1 | h1 <;> subst h1 <;> exact ⟨by decide, by decide⟩
  · intro townName h
    exact find?_or_left_false _ _ TRAVEL_POINTS_DATA h

/-- C4 witness: the exact town `本渡町広瀬` (second in table order). -/
theorem c4_exact_match_priority_witness :
    Final.findEntry "本渡町広瀬" = TRAVEL_POINTS_DATA.find? (fun e => e.town == "本渡町広瀬")
    ∧ Script.findEntry "本渡町広瀬" = TRAVEL_POINTS_DATA.find? (fun e => e.town == "本渡町広瀬") :=
  c4_exact_match_priority.1 "本渡町広瀬" (by decide)

/-- C5 (amended): the catch-all lookup is consulted exactly when no tier
matched and the input contains no excluded town name, but the shipped
table has no `東・浄南・太田町以外` entry, so the lookup never yields an
entry: no tier match means no entry is selected at all and the result is
the town-not-found error, never a catch-all travel point. -/
theorem c5_fallback_never_selects :
    catchAllLookup = none
    ∧ (∀ (townName : String) (key : Option ℚ),
        Final.findEntry townName = none →
          Final.targetEntryFor townName = none
          ∧ (Final.getTravelPoint townName key).point = townNotFoundMsg townName) := by
  refine ⟨catchAllLookup_none, ?_⟩
  intro townName key h
  refine ⟨targetEntryFor_none townName h, ?_⟩
  rw [final_no_match_result townName key h]

/-- C5 witness: `牛深町` matches no tier, so no entry (catch-all included)
is selected and the town-not-found error is returned. -/
theorem c5_fallback_never_selects_witness :
    Final.targetEntryFor "牛深町" = none
    ∧ (Final.getTravelPoint "牛深町" (some 160)).point = townNotFoundMsg "牛深町" :=
  c5_fallback_never_selects.2 "牛深町" (some 160) (by decide)

/-- C5 counterexample: `船之尾町` satisfies the claimed fallback condition
(no tier match, no excluded name contained), yet no catch-all entry is
selected — the table has no such entry and the result is the
town-not-found error with an empty matched town. -/
theorem c5_counterexample :
    Final.findEntry "船之尾町" = none
    ∧ Final.excludedHit "船之尾町" = false
    ∧ (∀ e ∈ TRAVEL_POINTS_DATA, e.town ≠ "東・浄南・太田町以外")
    ∧ Final.getTravelPoint "船之尾町" (some 1) = ⟨townNotFoundMsg "船之尾町", "", ""⟩ := by
  decide

/-- C6 (amended): every house-number string whose normalization yields NaN
makes the resolution surface an error-marked point (town-not-found or
range-not-found), never a successful travel point. (The empty string is
the exception the counterexample exhibits: it is coerced to key `0`.) -/
theorem c6_nan_always_errors (s : String) (townName : String)
    (h : Final.parseToNumeric s = none) :
    isErrorPoint (Final.getTravelPoint townName (Final.parseToNumeric s)).point = true := by
  rw [h]
  unfold Final.getTravelPoint
  cases ht : Final.targetEntryFor townName with
  | none => simp [ht, isErrorPoint_townNotFound]
  | some e => simp [ht, findRange_nan, isErrorPoint_rangeNotFound]

/-- C6 witness: `番地` normalizes to NaN and the resolution for `浄南町`
surfaces an error-marked point. -/
theorem c6_nan_always_errors_witness :
    isErrorPoint (Final.getTravelPoint "浄南町" (Final.parseToNumeric "番地")).point = true :=
  c6_nan_always_errors "番地" "浄南町" (by decide)

/-- C6 counterexample: the empty house-number string is silently coerced
to key `0` and matched against `浄南町`'s `0`-inclusive range `[0,5)`,
yielding the successful travel point `本渡` instead of an error. -/
theorem c6_counterexample :
    Final.parseToNumeric "" = some 0
    ∧ Final.getTravelPoint "浄南町" (Final.parseToNumeric "")
        = ⟨"本渡", "浄南町", "0 以上 5 未満"⟩
    ∧ isErrorPoint "本渡" = false
    ∧ (⟨0, 5, "本渡"⟩ : TravelRange) ∈ jonanEntry.ranges
    ∧ (⟨0, 5, "本渡"⟩ : TravelRange).start ≤ (0 : ℚ) := by
  decide

/-- C7: for every input town that no tier resolves (the catch-all finds
nothing in the shipped table), the facade returns the town-not-found error
whose message embeds the offending town name, with `matchedTown` and
`rangeStr` both empty. -/
theorem c7_town_not_found (townName : String) (key : Option ℚ)
    (h : Final.findEntry townName = none) :
    Final.getTravelPoint townName key =
      ⟨"エラー: 入力された町名「" ++ townName ++ "」に該当する旅費データが見つかりません。",
        "", ""⟩ :=
  final_no_match_result townName key h

/-- C7 witness: the claim's example town `存在しない町`. -/
theorem c7_town_not_found_witness :
    Final.getTravelPoint "存在しない町" (some 0) =
      ⟨"エラー: 入力された町名「" ++ "存在しない町" ++ "」に該当する旅費データが見つかりません。",
        "", ""⟩ :=
  c7_town_not_found "存在しない町" (some 0) (by decide)

/-- C8 (amended): `parseAddress` returns empty town and house number for
every address not containing `天草市`, without failing; for addresses that
do contain it, the split is computed over the segment between the first
occurrence and the next occurrence of the prefix, so text from a second
occurrence onward is dropped (`天草市A天草市1番` keeps only `A`). -/
theorem c8_splitter_behavior :
    (∀ s : String, containsSubS "天草市" s = false → parseAddress s = ⟨"", ""⟩)
    ∧ parseAddress "天草市A天草市1番" = ⟨"A", ""⟩ := by
  constructor
  · intro s h
    unfold parseAddress
    cases hb : breakOnL "天草市".data s.data with
    | none => rfl
    | some ab => simp [containsSubS, containsSubL, hb] at h
  · decide

/-- C8 witness: an address of a different municipality, lacking the
prefix, yields the empty split. -/
theorem c8_splitter_behavior_witness : parseAddress "熊本県八代市1番" = ⟨"", ""⟩ :=
  c8_splitter_behavior.1 "熊本県八代市1番" (by decide)

/-- C8 counterexample: for `天草市A天草市1番` the code works on the
segment `A` between the two occurrences and finds no house number, while
computing over everything after the first occurrence (the claim's words,
`parseAddressSpec`) yields town `A天草市` and house number `1番`. -/
theorem c8_counterexample :
    parseAddress "天草市A天草市1番" = ⟨"A", ""⟩
    ∧ parseAddressSpec "天草市A天草市1番" = ⟨"A天草市", "1番"⟩
    ∧ (⟨"A", ""⟩ : ParsedAddress) ≠ (⟨"A天草市", "1番"⟩ : ParsedAddress) := by
  decide

/-- C9: every successful (non-error-marked) resolution returns, verbatim,
the `location` field of some range of some shipped entry — compound
`or`-labels included; the resolver never rewrites the label. -/
theorem c9_location_verbatim (townName : String) (key : Option ℚ)
    (h : isErrorPoint (Final.getTravelPoint townName key).point = false) :
    ∃ e ∈ TRAVEL_POINTS_DATA, ∃ r ∈ e.ranges,
      (Final.getTravelPoint townName key).point = r.location := by
  cases ht : Final.targetEntryFor townName with
  | none =>
    exfalso
    simp [Final.getTravelPoint, ht, isErrorPoint_townNotFound] at h
  | some e =>
    have hmem : e ∈ TRAVEL_POINTS_DATA := targetEntryFor_mem townName e ht
    cases hr : Final.findRange key e.ranges with
    | none =>
      exfalso
      simp [Final.getTravelPoint, ht, hr, isErrorPoint_rangeNotFound] at h
    | some r =>
      have hrmem : r ∈ e.ranges := find?_mem _ _ _ hr
      exact ⟨e, hmem, r, hrmem, by simp [Final.getTravelPoint, ht, hr]⟩

/-- C9 witness: `浄南町` with key `5` succeeds with the ambiguous label
`本渡or亀場`, which is the matched range's location verbatim. -/
theorem c9_location_verbatim_witness :
    ∃ e ∈ TRAVEL_POINTS_DATA, ∃ r ∈ e.ranges,
      (Final.getTravelPoint "浄南町" (some 5)).point = r.location :=
  c9_location_verbatim "浄南町" (some 5) (by decide)

/-- C10: the shipped table has no entry keyed `東・浄南・太田町以外`, so
for every input town the strict tiers fail on, the result is the
town-not-found error (an error-marked point), never a catch-all entry's
travel point. -/
theorem c10_catch_all_absent :
    (∀ e ∈ TRAVEL_POINTS_DATA, e.town ≠ "東・浄南・太田町以外")
    ∧ (∀ (townName : String) (key : Option ℚ),
        Final.findEntry townName = none →
          (Final.getTravelPoint townName key).point = townNotFoundMsg townName
          ∧ isErrorPoint (Final.getTravelPoint townName key).point = true) := by
  refine ⟨by decide, ?_⟩
  intro townName key h
  rw [final_no_match_result townName key h]
  exact ⟨rfl, isErrorPoint_townNotFound townName⟩

/-- C10 witness: `東浜町` (the city hall's town, absent from the table and
not an excluded name) ends in the town-not-found error. -/
theorem c10_catch_all_absent_witness :
    (Final.getTravelPoint "東浜町" (some 8)).point = townNotFoundMsg "東浜町"
    ∧ isErrorPoint (Final.getTravelPoint "東浜町" (some 8)).point = true :=
  c10_catch_all_absent.2 "東浜町" (some 8) (by decide)
